import Mathlib

/-!
# Verification of the mpesa-credit-proof scoring kernel and proof-session pipeline

This file gives a shallow embedding of the core of the repository:

* the deterministic scoring kernel `methods/guest/src/main.rs` (the program
  executed inside the zkVM whose output is the public receipt journal);
* the proof-session operations of `api/src/services/proof.rs` and
  `api/src/worker.rs`;
* the verification handlers `api/src/handlers/verification.rs` and
  `api/src/handlers/lender.rs`.

Modelling conventions:

* Rust `u64`/`u8` values are modelled as `Nat`, `i64` as `Int`.  The `u64`
  accumulations that can overflow (the total volume, the per-day totals, the
  mean sum of daily totals and the growth-trend sums) wrap modulo `2^64`
  (`% U64MOD`), and the `i64` subtraction inside `calculate_days_between`
  wraps into the `i64` range (`i64wrap`) — modelling Rust release-mode
  wrapping arithmetic.  Saturating float-to-integer casts (`as u64`,
  `as u8`, saturating in Rust) are modelled with explicit `min` against the
  type's maximum.
* Rust `i64` division truncates toward zero; it is modelled by `Int.tdiv`.
* The guest's `f64` expressions are modelled by their exact real values,
  integerized: each definition notes the float expression it models and the
  integer form is exact for it (every division is kept symbolic until a final
  truncation, mirroring the single rounding performed by the cast in the
  source).  `f64` rounding noise of intermediate operations is not modelled;
  every concrete input used in a theorem below evaluates identically under
  IEEE-754 double precision (all intermediate values are exactly
  representable) so the concrete evaluations are faithful to the binary.
* Database rows and SQL `UPDATE`/`SELECT` statements are modelled as explicit
  record updates and list lookups.
-/

/-! ## Data model of the guest program (`methods/guest/src/main.rs`, lines 4-50) -/

/-- A single ledger entry, `Transaction` in `methods/guest/src/main.rs:10-15`.
`amount` is a `u64` count of minor currency units (cents). -/
structure Transaction where
  timestamp : Int
  amount : Nat
  transaction_type : String
  reference : String

deriving instance DecidableEq, Repr for Transaction

/-- `VolumeRange`, `methods/guest/src/main.rs:36-42`. -/
inductive VolumeRange where
  | VeryLow
  | Low
  | Medium
  | High
  | VeryHigh

deriving instance DecidableEq, Repr for VolumeRange

/-- `GrowthTrend`, `methods/guest/src/main.rs:45-50`. -/
inductive GrowthTrend where
  | Declining
  | Stable
  | Growing
  | Rapid

deriving instance DecidableEq, Repr for GrowthTrend

/-- `BusinessMetrics`, `methods/guest/src/main.rs:27-33`.  The three score
fields are `u8` in the source. -/
structure BusinessMetrics where
  monthly_volume_range : VolumeRange
  consistency_score : Nat
  growth_trend : GrowthTrend
  active_days_percentage : Nat
  customer_diversity_score : Nat

deriving instance DecidableEq, Repr for BusinessMetrics

/-- `ProofOutput`, the receipt journal, `methods/guest/src/main.rs:18-24`.
`till_number_hash` is a `[u8; 32]`, modelled as a list of 32 bytes. -/
structure ProofOutput where
  till_number_hash : List Nat
  period_start : Int
  period_end : Int
  credit_score : Nat
  metrics : BusinessMetrics

deriving instance DecidableEq, Repr for ProofOutput

/-! ## Integer square-root helpers

The guest computes `variance.sqrt()` on `f64`.  The exact-real value of the
score only depends on the square root through integer ceilings (see
`calculate_consistency` below); those ceilings are computed here with a
structurally recursive integer square root, so that every definition is
kernel-executable. -/

/-- Linear search for the integer square root: starting from candidate `c`
with `c^2 ≤ m`, walks upward while the next candidate still squares below
`m`.  `fuel` bounds the recursion structurally. -/
def isqrtGo (m : Nat) : Nat → Nat → Nat
  | 0, c => c
  | fuel + 1, c => if (c + 1) * (c + 1) ≤ m then isqrtGo m fuel (c + 1) else c

/-- `⌊√m⌋` for a natural number `m`. -/
def isqrt (m : Nat) : Nat := isqrtGo m m 0

/-- `⌈√(a/b)⌉` for the exact rational `a / b` (with `b > 0`): the least `c`
with `c^2 * b ≥ a`. -/
def ceilSqrtDiv (a b : Nat) : Nat :=
  let f := isqrt (a / b)
  if a ≤ f * f * b then f else f + 1

/-! ## The scoring kernel -/

/-- `2^64`, the modulus of wrapping `u64` arithmetic. -/
def U64MOD : Nat := 2 ^ 64

/-- Two's-complement wrap of an integer into the `i64` range
`[-2^63, 2^63)`: the value of an overflowing Rust `i64` operation in
release mode (wrapping semantics). -/
def i64wrap (x : Int) : Int := (x + 2 ^ 63) % 2 ^ 64 - 2 ^ 63

/-- Day index of a timestamp, `tx.timestamp / (24 * 60 * 60)` at
`methods/guest/src/main.rs:162`.  Rust `i64` division truncates toward
zero, hence `Int.tdiv`. -/
def dayIndex (t : Int) : Int := t.tdiv (24 * 60 * 60)

/-- Insert one amount into the per-day bucket of an association list,
mirroring `daily.entry(day).or_insert_with(Vec::new).push(tx.amount)` at
`methods/guest/src/main.rs:163`. -/
def insertDayAmount : List (Int × List Nat) → Int → Nat → List (Int × List Nat)
  | [], d, a => [(d, [a])]
  | (k, v) :: rest, d, a =>
      if k = d then (k, v ++ [a]) :: rest else (k, v) :: insertDayAmount rest d a

/-- `group_by_day`, `methods/guest/src/main.rs:158-167`.  The Rust function
returns a `HashMap<i64, Vec<u64>>`; it is modelled as an association list
with pairwise-distinct keys (keys in first-occurrence order, the amounts of
each day in transaction order).  Every consumer of the map in the source is
either insensitive to key order (exact sums in `calculate_consistency`) or
sorts the keys first (`calculate_growth_trend`), so the association-list
order is immaterial to all outputs. -/
def group_by_day (transactions : List Transaction) : List (Int × List Nat) :=
  transactions.foldl (fun acc t => insertDayAmount acc (dayIndex t.timestamp) t.amount) []

/-- `calculate_days_between`, `methods/guest/src/main.rs:169-178`:
`1` when `diff ≤ 0`, otherwise `max (diff / 86400) 1`, where
`diff = end - start` is an `i64` subtraction and therefore wraps into the
`i64` range when the timestamps are further than `2^63` apart. -/
def calculate_days_between (s e : Int) : Nat :=
  let diff := i64wrap (e - s)
  if diff ≤ 0 then 1
  else max ((diff.tdiv (24 * 60 * 60)).toNat) 1

/-- `categorize_volume`, `methods/guest/src/main.rs:180-195`: thresholds on
the monthly volume converted from cents to whole currency units. -/
def categorize_volume (monthly_volume : Nat) : VolumeRange :=
  let volume_ksh := monthly_volume / 100
  if volume_ksh < 50000 then VolumeRange.VeryLow
  else if volume_ksh < 250000 then VolumeRange.Low
  else if volume_ksh < 1000000 then VolumeRange.Medium
  else if volume_ksh < 5000000 then VolumeRange.High
  else VolumeRange.VeryHigh

/-- The per-day totals, `daily_volumes.values().map(|amounts| amounts.sum())`
at `methods/guest/src/main.rs:202-205`.  The per-day accumulation is a
`u64` sum, which wraps modulo `2^64` (a mod-reduced fold equals the plain
sum reduced once). -/
def dailyTotals (daily : List (Int × List Nat)) : List Nat :=
  daily.map (fun p => p.2.sum % U64MOD)

/-- `calculate_consistency`, `methods/guest/src/main.rs:197-232`.

The source computes, over the list of daily totals `x₁ … xₙ`
(`daily_totals`): the `u64` sum `S = (Σxᵢ) mod 2^64` — the accumulation
`daily_totals.iter().sum::<u64>()` at `main.rs:207` wraps — the mean
`μ = S/n`, the population `variance v = Σ(xᵢ - μ)²/n` (in `f64`, no
wrapping), `cv = √v/μ` (returning 0 when `μ = 0`), and the score
`(1 - min(cv,1)) * 100` clamped to `[0,100]` and truncated to `u8`.

Exactly (over the reals), with `T = Σxᵢ` the exact total, `S = T mod 2^64`
the wrapped one used by the mean, and `Q = Σxᵢ²`:
`n² v = n·Q + S² - 2·S·T` (which is `n·Σ(xᵢ - S/n)² ≥ 0`, so the
natural-number subtraction is exact) and the truncated score equals
`100 - min ⌈100·√v/μ⌉ 100 = 100 - min ⌈√(10000·(n·Q + S² - 2·S·T) / S²)⌉ 100`.
The definition computes that integer form.  When no wrap occurs (`T < 2^64`)
this is the familiar `n·Q - S²` variance numerator. -/
def calculate_consistency (daily : List (Int × List Nat)) : Nat :=
  if daily.isEmpty then 0
  else
    let totals := dailyTotals daily
    let n := totals.length
    let T := totals.sum
    -- the u64 accumulation of the daily totals wraps
    let S := T % U64MOD
    -- `if mean == 0.0 { return 0; }` : with n > 0, μ = 0 iff S = 0
    if S = 0 then 0
    else
      -- Q = Σ xᵢ², so n·Q + S² - 2·S·T = n² · variance (with μ = S/n)
      let Q := (totals.map (fun x => x * x)).sum
      let A := n * Q + S * S - 2 * S * T
      -- ⌈100 · √variance / mean⌉ = ⌈√(10000 · A / S²)⌉
      let c := ceilSqrtDiv (10000 * A) (S * S)
      100 - min c 100

/-- `calculate_growth_trend`, `methods/guest/src/main.rs:234-276`.

The sorted key list is split in thirds; `F` and `L` are the total amounts of
the first and last third.  The source classifies the float
`r = (L/third - F/third) / (F/third) = (L - F)/F` against `-0.2`, `0.1`,
`0.5`; for `F > 0` these comparisons are, exactly:
`r < -0.2 ↔ 5L < 4F`, `r < 0.1 ↔ 10L < 11F`, `r < 0.5 ↔ 2L < 3F`. -/
def calculate_growth_trend (daily : List (Int × List Nat)) : GrowthTrend :=
  if daily.length < 2 then GrowthTrend.Stable
  else
    let sorted_days := (daily.map Prod.fst).insertionSort (· ≤ ·)
    let third := daily.length / 3
    if third = 0 then GrowthTrend.Stable
    else
      -- `first_period`/`last_period` are u64 sums and wrap modulo 2^64
      let F := (((sorted_days.take third).map
        (fun d => ((daily.lookup d).getD []).sum)).sum) % U64MOD
      let L := (((sorted_days.drop (sorted_days.length - third)).map
        (fun d => ((daily.lookup d).getD []).sum)).sum) % U64MOD
      -- `if first_avg == 0.0 { return Stable; }`
      if F = 0 then GrowthTrend.Stable
      else if 5 * L < 4 * F then GrowthTrend.Declining
      else if 10 * L < 11 * F then GrowthTrend.Stable
      else if 2 * L < 3 * F then GrowthTrend.Growing
      else GrowthTrend.Rapid

/-- Points awarded per volume range inside `calculate_credit_score`,
`methods/guest/src/main.rs:286-292`. -/
def volumePoints : VolumeRange → Nat
  | VolumeRange.VeryLow => 5
  | VolumeRange.Low => 10
  | VolumeRange.Medium => 20
  | VolumeRange.High => 25
  | VolumeRange.VeryHigh => 30

/-- Points awarded per growth trend inside `calculate_credit_score`,
`methods/guest/src/main.rs:301-306`. -/
def growthPoints : GrowthTrend → Nat
  | GrowthTrend.Declining => 0
  | GrowthTrend.Stable => 5
  | GrowthTrend.Growing => 7
  | GrowthTrend.Rapid => 10

/-- `calculate_credit_score`, `methods/guest/src/main.rs:278-321`.

The float components are exact for all `u8` inputs:
`(c as f64 * 0.3) as u32 = ⌊3c/10⌋`,
`((a as f64 / 100.0) * 20.0) as u32 = ⌊20a/100⌋` and
`((d as f64 / 100.0) * 10.0) as u32 = ⌊10d/100⌋`
(for `c, a, d ≤ 255` the double-precision products round to the exact value
whenever the exact value is an integer and stay in the same unit interval
otherwise). -/
def calculate_credit_score (volume_range : VolumeRange) (consistency_score : Nat)
    (active_days_percentage : Nat) (growth_trend : GrowthTrend)
    (customer_diversity_score : Nat) : Nat :=
  let volume_points := volumePoints volume_range
  let consistency_points := consistency_score * 3 / 10
  let activity_points := active_days_percentage * 20 / 100
  let growth_points := growthPoints growth_trend
  let diversity_points := customer_diversity_score * 10 / 100
  let total := volume_points + consistency_points + activity_points
    + growth_points + diversity_points
  if 0 < volume_points then max total volume_points else 0

/-- The filter of `methods/guest/src/main.rs:61-66`: keep transactions with
`amount > 0` whose type is `"Payment"` or `"Reversal"`. -/
def validTransactions (input : List Transaction) : List Transaction :=
  (input.filter (fun t => decide (0 < t.amount))).filter
    (fun t => t.transaction_type == "Payment" || t.transaction_type == "Reversal")

/-- `input.transactions.iter().map(|t| t.timestamp).max().unwrap_or(0)` at
`methods/guest/src/main.rs:58`. -/
def maxTimestamp (input : List Transaction) : Int :=
  ((input.map (fun t => t.timestamp)).max?).getD 0

/-- `u64::MAX`; Rust saturating float-to-`u64` cast bound. -/
def U64MAX : Nat := 2 ^ 64 - 1

/-- The guest entry point `main`, `methods/guest/src/main.rs:52-156`, as a
function from the input transaction list to the committed journal.

Float expressions and their exact integer forms:
* the total volume is the wrapping `u64` sum of the filtered amounts
  (`total_volume` at `main.rs:96`), modelled as the plain sum reduced
  `% U64MOD`;
* monthly volume `(total as f64 / days as f64) * 30.0` cast `as u64`
  (saturating) is `min (total * 30 / days) U64MAX`;
* active-days percentage `((active as f64 / days as f64) * 100.0) as u8`
  (saturating) is `min (active * 100 / days) 255`;
* customer diversity `((unique as f64 / count as f64) * 100.0) as u8`
  is `min (unique * 100 / count) 255` (always ≤ 100 as `unique ≤ count`).

The `HashSet` of references is modelled by `List.dedup` (string-exact
uniqueness; only its cardinality is used). -/
def guestMain (input : List Transaction) : ProofOutput :=
  let now := maxTimestamp input
  let valid := validTransactions input
  if valid.isEmpty then
    { till_number_hash := List.replicate 32 0
      period_start := now
      period_end := now
      credit_score := 0
      metrics :=
        { monthly_volume_range := VolumeRange.VeryLow
          consistency_score := 0
          growth_trend := GrowthTrend.Declining
          active_days_percentage := 0
          customer_diversity_score := 0 } }
  else
    let daily_volumes := group_by_day valid
    let period_start := ((valid.map (fun t => t.timestamp)).min?).getD 0
    let period_end := ((valid.map (fun t => t.timestamp)).max?).getD 0
    -- `.sum::<u64>()` at main.rs:96 wraps modulo 2^64
    let total_volume := ((valid.map (fun t => t.amount)).sum) % U64MOD
    let days_in_period := calculate_days_between period_start period_end
    let monthly_volume := if 0 < days_in_period
      then min (total_volume * 30 / days_in_period) U64MAX else 0
    let monthly_volume_range := categorize_volume monthly_volume
    let consistency_score := calculate_consistency daily_volumes
    let active_days := daily_volumes.length
    let active_days_percentage := if 0 < days_in_period
      then min (active_days * 100 / days_in_period) 255 else 0
    let growth_trend := calculate_growth_trend daily_volumes
    let unique_references := (valid.map (fun t => t.reference)).dedup.length
    let customer_diversity_score := if 0 < valid.length
      then min (unique_references * 100 / valid.length) 255 else 0
    let credit_score := calculate_credit_score monthly_volume_range
      consistency_score active_days_percentage growth_trend customer_diversity_score
    { till_number_hash := List.replicate 32 0
      period_start := period_start
      period_end := period_end
      credit_score := credit_score
      metrics :=
        { monthly_volume_range := monthly_volume_range
          consistency_score := consistency_score
          growth_trend := growth_trend
          active_days_percentage := active_days_percentage
          customer_diversity_score := customer_diversity_score } }

/-! ## Proof-session state machine and store (`api/src`)

The PostgreSQL `proof_sessions` table is modelled as a record per row and a
list of rows per table; each SQL statement of the source is modelled as the
corresponding record update or list lookup.  `fetch_optional` returns the
first matching row. -/

/-- The `status` column, `status ∈ {pending, processing, completed, failed}`. -/
inductive SessionStatus where
  | pending
  | processing
  | completed
  | failed

deriving instance DecidableEq, Repr for SessionStatus

/-- One row of `proof_sessions` (essential columns; `metrics` is an opaque
serialized JSON value, `receipt_data` an opaque byte string). -/
structure ProofSession where
  tillId : Nat
  status : SessionStatus
  progress : Option Nat
  creditScore : Option Int
  metrics : Option String
  receiptData : Option (List Nat)
  verificationCode : String
  expiresAt : Int
  errorMessage : Option String
  createdAt : Int
  updatedAt : Int

deriving instance DecidableEq, Repr for ProofSession

/-- Position of a status along the documented order
`Pending → Processing → {Completed, Failed}`. -/
def statusRank : SessionStatus → Nat
  | SessionStatus.pending => 0
  | SessionStatus.processing => 1
  | SessionStatus.completed => 2
  | SessionStatus.failed => 2

/-- `ProofService::create_proof_session`, `api/src/services/proof.rs:8-34`:
`INSERT INTO proof_sessions (id, user_id, till_id, status, verification_code,
expires_at) VALUES (..., 'pending', code, now + Duration::days(365))`.
The verification code comes from `generate_verification_code()` (randomized);
it is a parameter here.  `created_at`/`updated_at` are not part of the
`INSERT`; their values are the schema's column defaults.  Modelled from the
spec: the migration files are not part of the sources; per the spec
(`created_at = updated_at = now`) both default to the insertion time. -/
def create_proof_session (tillId : Nat) (now : Int) (code : String) : ProofSession :=
  { tillId := tillId
    status := SessionStatus.pending
    progress := none
    creditScore := none
    metrics := none
    receiptData := none
    verificationCode := code
    expiresAt := now + 365 * 86400
    errorMessage := none
    createdAt := now
    updatedAt := now }

/-- The status update that begins proof generation, executed by the worker at
`api/src/worker.rs:55` and again by `ProofService::generate_proof` at
`api/src/services/proof.rs:60`:
`UPDATE proof_sessions SET status = 'processing' WHERE id = $1`.
The statement carries no condition on the current status. -/
def claimSession (s : ProofSession) : ProofSession :=
  { s with status := SessionStatus.processing }

/-- Modelled from the spec (§4.3 Session Store): `claim(session_id)` is an
atomic `Pending → Processing` transition that fails if the session is not
`Pending`.  This is the specification-side operation that
`claimSession` is compared against; no such guard exists in the sources. -/
def claimSpec (s : ProofSession) : Option ProofSession :=
  if s.status = SessionStatus.pending
  then some { s with status := SessionStatus.processing }
  else none

/-! ## Verification gateway (`api/src/handlers`) -/

/-- Response of `GET /verify/:code`, `api/src/handlers/verification.rs:8-15`. -/
structure VerificationResponse where
  valid : Bool
  businessId : String
  period : String
  creditScore : Int
  metrics : String

deriving instance DecidableEq, Repr for VerificationResponse

/-- The row filter of the query in `verify_code`,
`api/src/handlers/verification.rs:21-30`:
`WHERE verification_code = $1 AND status = 'completed'`.
Note: the query has no condition on `expires_at`, and the handler never
reads that column. -/
def verifyCodeRowMatch (code : String) (s : ProofSession) : Bool :=
  s.verificationCode == code && decide (s.status = SessionStatus.completed)

/-- `verify_code`, `api/src/handlers/verification.rs:17-66`.

`hashTill` stands for `crate::utils::hash_phone_number` and `tills` for the
`business_tills` table (both outside the core; the spec declares the hashing
utility an external collaborator).  `formatMonth` stands for
`created_at.format("%b %Y")`.  `none` models the `AppError::NotFound`
result. -/
def verify_code (hashTill : String → String) (formatMonth : Int → String)
    (tills : List (Nat × String)) (db : List ProofSession) (code : String) :
    Option VerificationResponse :=
  match db.find? (verifyCodeRowMatch code) with
  | none => none
  | some row =>
      let tillNumber := ((tills.lookup row.tillId).getD "unknown")
      some
        { valid := true
          businessId := hashTill tillNumber
          period := formatMonth row.createdAt ++ " - " ++ formatMonth row.createdAt
          creditScore := row.creditScore.getD 0
          metrics := row.metrics.getD "\x7b\x7d" }

/-- Error kinds of `AppError` used by the lender handler,
`api/src/handlers/lender.rs`. -/
inductive AppError where
  | Validation (msg : String)
  | NotFound (msg : String)
  | Upstream (msg : String)

deriving instance DecidableEq, Repr for AppError

/-- Response of `POST /api/lender/verify`, `api/src/handlers/lender.rs:14-20`. -/
structure VerifyProofResponse where
  valid : Bool
  creditScore : Int
  metrics : String
  generatedAt : Int

deriving instance DecidableEq, Repr for VerifyProofResponse

/-- `verify_proof`, `api/src/handlers/lender.rs:22-60`.

* `parseUuidOk` models `Uuid::parse_str` (returns `AppError::Validation` on
  failure);
* the query filter is again
  `WHERE verification_code = $1 AND status = 'completed'` (the handler binds
  the request's `proof_id` string to the `verification_code` column);
* `verifyReceipt` models `ProofService::verify_receipt`
  (`api/src/services/proof.rs:36-52`): `Ok true`/`Ok false` for a seal
  check result, `Except.error` for a deserialization failure, propagated by
  `?`;
* when `receipt_data` is NULL the handler skips receipt verification
  entirely and sets `valid = true`
  (`else { true } // If no receipt, assume valid (for development)`). -/
def verify_proof (parseUuidOk : String → Bool)
    (verifyReceipt : List Nat → Except String Bool)
    (db : List ProofSession) (proofId : String) :
    Except AppError VerifyProofResponse :=
  if parseUuidOk proofId = false then Except.error (AppError.Validation "Invalid UUID")
  else
    match db.find? (verifyCodeRowMatch proofId) with
    | none => Except.error (AppError.NotFound "Proof not found")
    | some row =>
        let finish : Bool → Except AppError VerifyProofResponse := fun v =>
          Except.ok
            { valid := v
              creditScore := row.creditScore.getD 0
              metrics := row.metrics.getD "\x7b\x7d"
              generatedAt := row.createdAt }
        match row.receiptData with
        | some rd =>
            match verifyReceipt rd with
            | Except.ok v => finish v
            | Except.error e => Except.error (AppError.Upstream e)
        | none => finish true

/-- `period_start` of the non-empty branch,
`valid_transactions.iter().map(|t| t.timestamp).min().unwrap()` at
`methods/guest/src/main.rs:92` (the `unwrap` is safe there; `getD 0` is
never exercised for non-empty input). -/
def periodStart (input : List Transaction) : Int :=
  (((validTransactions input).map (fun t => t.timestamp)).min?).getD 0

/-- `period_end`, `methods/guest/src/main.rs:93`. -/
def periodEnd (input : List Transaction) : Int :=
  (((validTransactions input).map (fun t => t.timestamp)).max?).getD 0

/-- Antisymmetry of `≤` on `Int`, packaged for the `List.max?` lemmas. -/
instance : Std.Antisymm (fun x1 x2 : Int => x1 ≤ x2) :=
  ⟨fun h1 h2 => le_antisymm h1 h2⟩

/-! ## Correctness of the integer square-root helpers -/

theorem isqrtGo_spec (m : Nat) :
    ∀ fuel c, c * c ≤ m → m < (c + fuel + 1) * (c + fuel + 1) →
      isqrtGo m fuel c * isqrtGo m fuel c ≤ m ∧
      m < (isqrtGo m fuel c + 1) * (isqrtGo m fuel c + 1) := by
  intro fuel
  induction fuel with
  | zero =>
      intro c h1 h2
      simpa [isqrtGo] using And.intro h1 h2
  | succ fuel ih =>
      intro c h1 h2
      rw [isqrtGo]
      by_cases h : (c + 1) * (c + 1) ≤ m
      · rw [if_pos h]
        refine ih (c + 1) h ?_
        have he : c + 1 + fuel + 1 = c + (fuel + 1) + 1 := by omega
        rw [he]
        exact h2
      · rw [if_neg h]
        exact ⟨h1, Nat.lt_of_not_le h⟩

theorem isqrt_spec (m : Nat) :
    isqrt m * isqrt m ≤ m ∧ m < (isqrt m + 1) * (isqrt m + 1) := by
  refine isqrtGo_spec m m 0 (by simp) ?_
  have : m < (m + 1) * (m + 1) := by nlinarith
  simpa using this

/-- `ceilSqrtDiv a b` is an upper integer bound on `√(a/b)` … -/
theorem ceilSqrtDiv_spec (a b : Nat) (hb : 0 < b) :
    a ≤ ceilSqrtDiv a b * ceilSqrtDiv a b * b ∧
    (0 < ceilSqrtDiv a b →
      (ceilSqrtDiv a b - 1) * (ceilSqrtDiv a b - 1) * b < a) := by
  have hf := isqrt_spec (a / b)
  have hf1 : isqrt (a / b) * isqrt (a / b) * b ≤ a := by
    calc isqrt (a / b) * isqrt (a / b) * b ≤ (a / b) * b :=
          Nat.mul_le_mul_right b hf.1
      _ ≤ a := Nat.div_mul_le_self a b
  have hf2 : a < (isqrt (a / b) + 1) * (isqrt (a / b) + 1) * b :=
    (Nat.div_lt_iff_lt_mul hb).mp hf.2
  unfold ceilSqrtDiv
  by_cases h : a ≤ isqrt (a / b) * isqrt (a / b) * b
  · rw [if_pos h]
    refine ⟨h, ?_⟩
    intro hpos
    have heq : a = isqrt (a / b) * isqrt (a / b) * b := Nat.le_antisymm h hf1
    have hlt : (isqrt (a / b) - 1) * (isqrt (a / b) - 1) < isqrt (a / b) * isqrt (a / b) := by
      have h1 : isqrt (a / b) - 1 < isqrt (a / b) := Nat.sub_lt hpos Nat.one_pos
      nlinarith
    have hmul : (isqrt (a / b) - 1) * (isqrt (a / b) - 1) * b
        < isqrt (a / b) * isqrt (a / b) * b :=
      (Nat.mul_lt_mul_right hb).mpr hlt
    linarith [hmul, heq.ge]
  · rw [if_neg h]
    refine ⟨Nat.le_of_lt ?_, fun _ => Nat.lt_of_not_le h⟩
    simpa using hf2

/-- Minimality: any `m` with `m² b ≥ a` dominates `ceilSqrtDiv a b`. -/
theorem ceilSqrtDiv_le (a b m : Nat) (hb : 0 < b) (h : a ≤ m * m * b) :
    ceilSqrtDiv a b ≤ m := by
  by_contra hc
  have hm : m < ceilSqrtDiv a b := Nat.lt_of_not_le hc
  have hpos : 0 < ceilSqrtDiv a b := by omega
  have h2 := (ceilSqrtDiv_spec a b hb).2 hpos
  have hle : m ≤ ceilSqrtDiv a b - 1 := by omega
  have : m * m * b ≤ (ceilSqrtDiv a b - 1) * (ceilSqrtDiv a b - 1) * b :=
    Nat.mul_le_mul_right b (Nat.mul_le_mul hle hle)
  omega

/-- Any `m` with `m² b < a` is below `ceilSqrtDiv a b`. -/
theorem lt_ceilSqrtDiv (a b m : Nat) (hb : 0 < b) (h : m * m * b < a) :
    m < ceilSqrtDiv a b := by
  by_contra hc
  have hm : ceilSqrtDiv a b ≤ m := Nat.le_of_not_lt hc
  have h1 := (ceilSqrtDiv_spec a b hb).1
  have : ceilSqrtDiv a b * ceilSqrtDiv a b * b ≤ m * m * b :=
    Nat.mul_le_mul_right b (Nat.mul_le_mul hm hm)
  omega

/-! ## Consistency score: closed forms, bounds, exact characterization -/

theorem calculate_consistency_nil : calculate_consistency [] = 0 := rfl

theorem calculate_consistency_of_sum_eq_zero (daily : List (Int × List Nat))
    (h : (dailyTotals daily).sum % U64MOD = 0) : calculate_consistency daily = 0 := by
  cases daily with
  | nil => rfl
  | cons a l => simp [calculate_consistency, h]

theorem calculate_consistency_of_sum_ne_zero (daily : List (Int × List Nat))
    (h : (dailyTotals daily).sum % U64MOD ≠ 0) :
    calculate_consistency daily =
      100 - min (ceilSqrtDiv
        (10000 * ((dailyTotals daily).length *
            ((dailyTotals daily).map (fun x => x * x)).sum +
          ((dailyTotals daily).sum % U64MOD) * ((dailyTotals daily).sum % U64MOD) -
          2 * ((dailyTotals daily).sum % U64MOD) * (dailyTotals daily).sum))
        (((dailyTotals daily).sum % U64MOD) * ((dailyTotals daily).sum % U64MOD))) 100 := by
  cases daily with
  | nil => simp [dailyTotals] at h
  | cons a l => simp [calculate_consistency, h]

theorem calculate_consistency_le_100 (daily : List (Int × List Nat)) :
    calculate_consistency daily ≤ 100 := by
  by_cases h : (dailyTotals daily).sum % U64MOD = 0
  · rw [calculate_consistency_of_sum_eq_zero daily h]
    exact Nat.zero_le 100
  · rw [calculate_consistency_of_sum_ne_zero daily h]
    exact Nat.sub_le 100 _

/-- C7 (amended): for every non-empty daily grouping, writing `n` for the
number of daily totals (themselves wrapping per-day `u64` sums), `T` for
their exact sum, `S = T mod 2^64` for the program's wrapping `u64`
accumulation of them (so the mean the source uses is `μ = S/n`) and `Q`
for the sum of their squares (the population variance is then
`v = (n·Q + S² - 2·S·T)/n²`), the consistency score `s` of the source
satisfies: if `μ = 0` then `s = 0`; if the coefficient of variation `σ/μ`
is at least 1 (equivalently `n·Q ≥ 2·S·T`) then `s = 0`; otherwise `s` is
the **truncation** (not the rounding claimed by the spec) of
`(1 - σ/μ)·100`, pinned down exactly by `(100-s)·μ ≥ 100·σ > (99-s)·μ`,
stated below with all quantities squared and multiplied out by `n²` so
that only integers appear (`n²·v = n·Q + S² - 2·S·T` and `n²·μ² = S²`):
`(100-s)²·S² + 10000·2·S·T ≥ 10000·(n·Q + S²) > (99-s)²·S² + 10000·2·S·T`
(the strict half only when `s < 100`).  When the accumulation does not
wrap (`T < 2^64`), `S = T` and this is the familiar
`(100-s)²·S² + 10000·S² ≥ 10000·n·Q` characterization. -/
theorem consistency_score_characterization (daily : List (Int × List Nat))
    (n T S Q s : Nat)
    (hne : daily ≠ [])
    (hn : n = (dailyTotals daily).length)
    (hT : T = (dailyTotals daily).sum)
    (hS : S = T % U64MOD)
    (hQ : Q = ((dailyTotals daily).map (fun x => x * x)).sum)
    (hs : s = calculate_consistency daily) :
    (S = 0 → s = 0) ∧
    (0 < S → 2 * S * T ≤ n * Q → s = 0) ∧
    (0 < S → n * Q < 2 * S * T →
      s ≤ 100 ∧
      10000 * (n * Q + S * S) ≤
        (100 - s) * (100 - s) * (S * S) + 10000 * (2 * S * T) ∧
      (s < 100 →
        (99 - s) * (99 - s) * (S * S) + 10000 * (2 * S * T) <
          10000 * (n * Q + S * S))) := by
  constructor
  · intro hS0
    rw [hs]
    refine calculate_consistency_of_sum_eq_zero daily ?_
    rw [← hT, ← hS]
    exact hS0
  constructor
  · -- cv ≥ 1: the integer ceiling of 100·σ/μ is ≥ 100, the min clamps, s = 0
    intro hSpos hcv
    have hS0 : (dailyTotals daily).sum % U64MOD ≠ 0 := by
      rw [← hT, ← hS]
      omega
    have hSS : 0 < S * S := Nat.mul_pos hSpos hSpos
    have hA : S * S ≤ n * Q + S * S - 2 * S * T := by omega
    have hlow : 99 * 99 * (S * S) < 10000 * (n * Q + S * S - 2 * S * T) := by
      have h1 : 99 * 99 * (S * S) < 10000 * (S * S) := by nlinarith
      have h2 : 10000 * (S * S) ≤ 10000 * (n * Q + S * S - 2 * S * T) :=
        Nat.mul_le_mul_left 10000 hA
      omega
    have hc : 99 < ceilSqrtDiv (10000 * (n * Q + S * S - 2 * S * T)) (S * S) :=
      lt_ceilSqrtDiv _ _ 99 hSS hlow
    rw [hs, calculate_consistency_of_sum_ne_zero daily hS0, ← hn, ← hQ, ← hT, ← hS]
    omega
  · -- cv < 1
    intro hSpos hcv
    have hS0 : (dailyTotals daily).sum % U64MOD ≠ 0 := by
      rw [← hT, ← hS]
      omega
    have hSS : 0 < S * S := Nat.mul_pos hSpos hSpos
    have hA : n * Q + S * S - 2 * S * T ≤ S * S := by omega
    have hub : 10000 * (n * Q + S * S - 2 * S * T) ≤ 100 * 100 * (S * S) := by
      have : 10000 * (n * Q + S * S - 2 * S * T) ≤ 10000 * (S * S) :=
        Nat.mul_le_mul_left 10000 hA
      linarith
    have hcle : ceilSqrtDiv (10000 * (n * Q + S * S - 2 * S * T)) (S * S) ≤ 100 :=
      ceilSqrtDiv_le _ _ 100 hSS hub
    have hspec := ceilSqrtDiv_spec (10000 * (n * Q + S * S - 2 * S * T)) (S * S) hSS
    have hsval : s = 100 - ceilSqrtDiv (10000 * (n * Q + S * S - 2 * S * T)) (S * S) := by
      rw [hs, calculate_consistency_of_sum_ne_zero daily hS0, ← hn, ← hQ, ← hT, ← hS]
      omega
    refine ⟨by omega, ?_, ?_⟩
    · have h1 := hspec.1
      have hcs : ceilSqrtDiv (10000 * (n * Q + S * S - 2 * S * T)) (S * S) = 100 - s := by
        omega
      rw [hcs] at h1
      by_cases hcase : 2 * S * T ≤ n * Q + S * S
      · have hsum : 10000 * (n * Q + S * S) =
            10000 * (n * Q + S * S - 2 * S * T) + 10000 * (2 * S * T) := by
          omega
        omega
      · -- then the subtrahend truncates to 0 and the right side dominates outright
        have hz : n * Q + S * S - 2 * S * T = 0 := by omega
        omega
    · intro hslt
      have hcpos : 0 < ceilSqrtDiv (10000 * (n * Q + S * S - 2 * S * T)) (S * S) := by
        omega
      have h2 := hspec.2 hcpos
      have hcs : ceilSqrtDiv (10000 * (n * Q + S * S - 2 * S * T)) (S * S) - 1 = 99 - s := by
        omega
      rw [hcs] at h2
      by_cases hcase : 2 * S * T ≤ n * Q + S * S
      · have hsum : 10000 * (n * Q + S * S) =
            10000 * (n * Q + S * S - 2 * S * T) + 10000 * (2 * S * T) := by
          omega
        omega
      · -- impossible: then the subtrahend is 0 and h2 is absurd
        have hz : n * Q + S * S - 2 * S * T = 0 := by omega
        rw [hz] at h2
        simp at h2

/-- C7 witness: the characterization at the concrete grouping
`{day 0 ↦ [100], day 1 ↦ [200]}` (daily totals 100 and 200, so `n = 2`,
`T = 300` with no wrap, `S = 300`, `Q = 50000`, and the computed score is
66). -/
theorem consistency_score_characterization_witness :
    calculate_consistency [((0 : Int), [100]), (1, [200])] = 66 ∧
    ((300 = 0 → 66 = 0) ∧
     (0 < 300 → 2 * 300 * 300 ≤ 2 * 50000 → 66 = 0) ∧
     (0 < 300 → 2 * 50000 < 2 * 300 * 300 →
       66 ≤ 100 ∧
       10000 * (2 * 50000 + 300 * 300) ≤
         (100 - 66) * (100 - 66) * (300 * 300) + 10000 * (2 * 300 * 300) ∧
       (66 < 100 →
         (99 - 66) * (99 - 66) * (300 * 300) + 10000 * (2 * 300 * 300) <
           10000 * (2 * 50000 + 300 * 300)))) :=
  ⟨by decide,
   consistency_score_characterization [((0 : Int), [100]), (1, [200])] 2 300 300 50000 66
     (by decide) (by decide) (by decide) (by decide) (by decide) (by decide)⟩

/-- C7 counterexample: the claim says the score is
`round((1 - min(σ/μ, 1)) * 100)`, but the source truncates (`as u8`).  For
daily totals 100 and 200 (`n = 2`, `T = S = 300`, `Q = 50000`, so
`n²·variance = n·Q + S² - 2·S·T = 10000`) the exact value is
`(1 - 1/3)·100 = 66.66…`, whose rounding is 67; the source yields 66.  The
two inequalities state `32.5 < 100·σ/μ ≤ 33.5` (squared and multiplied by
`n²·μ²·S² …`: `40000·n²·v` against `(65·S)²` and `(67·S)²`), i.e. the
claimed rounding is exactly 67, not 66. -/
theorem consistency_rounds_down_not_up :
    calculate_consistency [((0 : Int), [100]), (1, [200])] = 66 ∧
    4225 * (300 * 300) < 40000 * (2 * 50000 + 300 * 300 - 2 * 300 * 300) ∧
    40000 * (2 * 50000 + 300 * 300 - 2 * 300 * 300) ≤ 4489 * (300 * 300) := by decide

/-! ## Keys of the daily grouping

`group_by_day` models a `HashMap`: its keys are pairwise distinct and are
exactly the day indices occurring in the input.  Hence the number of buckets
(`active_days` in the source) is the number of distinct day indices. -/

theorem insertDayAmount_keys (acc : List (Int × List Nat)) (d : Int) (a : Nat) :
    (insertDayAmount acc d a).map Prod.fst =
      if d ∈ acc.map Prod.fst then acc.map Prod.fst
      else acc.map Prod.fst ++ [d] := by
  induction acc with
  | nil => simp [insertDayAmount]
  | cons p rest ih =>
      obtain ⟨k, v⟩ := p
      by_cases hk : k = d
      · subst hk
        simp [insertDayAmount]
      · have hk' : ¬ d = k := fun h => hk h.symm
        simp only [insertDayAmount, if_neg hk, List.map_cons, ih, List.mem_cons]
        by_cases hmem : d ∈ rest.map Prod.fst
        · simp [hmem, hk']
        · simp [hmem, hk']

theorem insertDayAmount_keys_nodup (acc : List (Int × List Nat)) (d : Int) (a : Nat)
    (h : (acc.map Prod.fst).Nodup) :
    ((insertDayAmount acc d a).map Prod.fst).Nodup := by
  rw [insertDayAmount_keys]
  by_cases hmem : d ∈ acc.map Prod.fst
  · rwa [if_pos hmem]
  · rw [if_neg hmem]
    refine List.Nodup.append h (List.nodup_singleton d) ?_
    intro x hx hx2
    have hxd : x = d := by simpa using hx2
    exact hmem (hxd ▸ hx)

theorem insertDayAmount_keys_toFinset (acc : List (Int × List Nat)) (d : Int) (a : Nat) :
    ((insertDayAmount acc d a).map Prod.fst).toFinset =
      insert d (acc.map Prod.fst).toFinset := by
  rw [insertDayAmount_keys]
  by_cases hmem : d ∈ acc.map Prod.fst
  · rw [if_pos hmem]
    exact (Finset.insert_eq_self.mpr (List.mem_toFinset.mpr hmem)).symm
  · rw [if_neg hmem]
    rw [List.toFinset_append]
    simp [Finset.union_comm, Finset.insert_eq]

theorem group_by_day_foldl_nodup (txs : List Transaction) :
    ∀ acc : List (Int × List Nat), (acc.map Prod.fst).Nodup →
      (((txs.foldl (fun acc t => insertDayAmount acc (dayIndex t.timestamp) t.amount)
        acc)).map Prod.fst).Nodup := by
  induction txs with
  | nil => intro acc h; simpa using h
  | cons t ts ih =>
      intro acc h
      exact ih _ (insertDayAmount_keys_nodup acc (dayIndex t.timestamp) t.amount h)

theorem group_by_day_foldl_toFinset (txs : List Transaction) :
    ∀ acc : List (Int × List Nat),
      (((txs.foldl (fun acc t => insertDayAmount acc (dayIndex t.timestamp) t.amount)
        acc)).map Prod.fst).toFinset =
      (acc.map Prod.fst).toFinset ∪ (txs.map (fun t => dayIndex t.timestamp)).toFinset := by
  induction txs with
  | nil => intro acc; simp
  | cons t ts ih =>
      intro acc
      simp only [List.foldl_cons, List.map_cons, List.toFinset_cons]
      rw [ih, insertDayAmount_keys_toFinset]
      rw [Finset.insert_union, Finset.union_insert]

/-- The number of daily buckets is the number of distinct day indices. -/
theorem group_by_day_length (txs : List Transaction) :
    (group_by_day txs).length =
      (txs.map (fun t => dayIndex t.timestamp)).toFinset.card := by
  have hnodup := group_by_day_foldl_nodup txs [] (by simp)
  have hset := group_by_day_foldl_toFinset txs []
  simp only [List.map_nil, List.toFinset_nil, Finset.empty_union] at hset
  calc (group_by_day txs).length
      = ((group_by_day txs).map Prod.fst).length := (List.length_map _ _).symm
    _ = ((group_by_day txs).map Prod.fst).toFinset.card :=
        (List.toFinset_card_of_nodup hnodup).symm
    _ = (txs.map (fun t => dayIndex t.timestamp)).toFinset.card := by
        rw [show ((group_by_day txs).map Prod.fst) =
          ((txs.foldl (fun acc t => insertDayAmount acc (dayIndex t.timestamp) t.amount)
            [])).map Prod.fst from rfl, hset]

/-! ## Days-in-period: closed form and positivity -/

theorem calculate_days_between_pos (s e : Int) : 0 < calculate_days_between s e := by
  unfold calculate_days_between
  dsimp only
  split
  · exact Nat.one_pos
  · exact Nat.lt_of_lt_of_le Nat.one_pos (Nat.le_max_right _ 1)

/-- `calculate_days_between` agrees with the closed form
`max 1 ⌊i64wrap (e - s) / 86400⌋` (the `i64` difference wraps, the quotient
truncates toward zero, and `toNat` clamps the nonpositive case to the
`diff ≤ 0` branch). -/
theorem calculate_days_between_eq (s e : Int) :
    calculate_days_between s e = max 1 ((i64wrap (e - s)).tdiv 86400).toNat := by
  unfold calculate_days_between
  dsimp only
  split
  · next hle =>
      have hneg : 0 ≤ (-(i64wrap (e - s))).tdiv 86400 :=
        Int.tdiv_nonneg (by omega) (by norm_num)
      rw [Int.neg_tdiv] at hneg
      have htd : (i64wrap (e - s)).tdiv 86400 ≤ 0 := by omega
      have h0 : ((i64wrap (e - s)).tdiv 86400).toNat = 0 := Int.toNat_of_nonpos htd
      rw [h0]
      simp
  · next hle =>
      rw [show ((24 : Int) * 60 * 60) = 86400 by norm_num, Nat.max_comm]

/-! ## Projections of the guest output -/

theorem validTransactions_isEmpty_false (input : List Transaction)
    (h : validTransactions input ≠ []) : (validTransactions input).isEmpty = false := by
  cases hv : validTransactions input with
  | nil => exact absurd hv h
  | cons a l => rfl

/-- The null branch of `main` (`methods/guest/src/main.rs:68-85`). -/
theorem guestMain_of_valid_nil (input : List Transaction)
    (h : validTransactions input = []) :
    guestMain input =
      { till_number_hash := List.replicate 32 0
        period_start := maxTimestamp input
        period_end := maxTimestamp input
        credit_score := 0
        metrics :=
          { monthly_volume_range := VolumeRange.VeryLow
            consistency_score := 0
            growth_trend := GrowthTrend.Declining
            active_days_percentage := 0
            customer_diversity_score := 0 } } := by
  simp [guestMain, h]

theorem guestMain_period_start (input : List Transaction)
    (h : validTransactions input ≠ []) :
    (guestMain input).period_start = periodStart input := by
  simp [guestMain, periodStart, validTransactions_isEmpty_false input h]

theorem guestMain_period_end (input : List Transaction)
    (h : validTransactions input ≠ []) :
    (guestMain input).period_end = periodEnd input := by
  simp [guestMain, periodEnd, validTransactions_isEmpty_false input h]

theorem guestMain_monthly_volume_range (input : List Transaction)
    (h : validTransactions input ≠ []) :
    (guestMain input).metrics.monthly_volume_range =
      categorize_volume (min
        ((((validTransactions input).map (fun t => t.amount)).sum % U64MOD) * 30 /
          calculate_days_between (periodStart input) (periodEnd input)) U64MAX) := by
  simp [guestMain, periodStart, periodEnd, validTransactions_isEmpty_false input h,
    calculate_days_between_pos]

theorem guestMain_consistency_score (input : List Transaction)
    (h : validTransactions input ≠ []) :
    (guestMain input).metrics.consistency_score =
      calculate_consistency (group_by_day (validTransactions input)) := by
  simp [guestMain, validTransactions_isEmpty_false input h]

theorem guestMain_growth_trend (input : List Transaction)
    (h : validTransactions input ≠ []) :
    (guestMain input).metrics.growth_trend =
      calculate_growth_trend (group_by_day (validTransactions input)) := by
  simp [guestMain, validTransactions_isEmpty_false input h]

theorem guestMain_active_days_percentage (input : List Transaction)
    (h : validTransactions input ≠ []) :
    (guestMain input).metrics.active_days_percentage =
      min ((group_by_day (validTransactions input)).length * 100 /
        calculate_days_between (periodStart input) (periodEnd input)) 255 := by
  simp [guestMain, periodStart, periodEnd, validTransactions_isEmpty_false input h,
    calculate_days_between_pos]

theorem guestMain_customer_diversity_score (input : List Transaction)
    (h : validTransactions input ≠ []) :
    (guestMain input).metrics.customer_diversity_score =
      min (((validTransactions input).map (fun t => t.reference)).dedup.length * 100 /
        (validTransactions input).length) 255 := by
  have hlen : 0 < (validTransactions input).length := List.length_pos.mpr h
  simp [guestMain, validTransactions_isEmpty_false input h, hlen]

theorem guestMain_credit_score (input : List Transaction)
    (h : validTransactions input ≠ []) :
    (guestMain input).credit_score = calculate_credit_score
      (guestMain input).metrics.monthly_volume_range
      (guestMain input).metrics.consistency_score
      (guestMain input).metrics.active_days_percentage
      (guestMain input).metrics.growth_trend
      (guestMain input).metrics.customer_diversity_score := by
  simp [guestMain, validTransactions_isEmpty_false input h]

/-! ## Credit-score bounds -/

theorem calculate_credit_score_bounds (vr : VolumeRange) (c a d : Nat)
    (hc : c ≤ 100) (ha : a ≤ 255) (hd : d ≤ 100) :
    ∀ gt : GrowthTrend,
      volumePoints vr ≤ calculate_credit_score vr c a gt d ∧
      calculate_credit_score vr c a gt d ≤ 131 := by
  intro gt
  have hvp : 0 < volumePoints vr := by cases vr <;> simp [volumePoints]
  have hvp30 : volumePoints vr ≤ 30 := by cases vr <;> simp [volumePoints]
  have hgp : growthPoints gt ≤ 10 := by cases gt <;> simp [growthPoints]
  simp only [calculate_credit_score]
  rw [if_pos hvp]
  exact ⟨Nat.le_max_right _ _, by omega⟩

/-- C3 (amended): the credit score is bounded by 131 (not 100: the
active-days percentage can reach 255, contributing up to 51 activity
points), and on any input with a non-empty filtered transaction set the
score is at least its own volume component — which is always positive
(5/10/20/25/30). -/
theorem credit_score_bounds (input : List Transaction) :
    (guestMain input).credit_score ≤ 131 ∧
    (validTransactions input ≠ [] →
      0 < volumePoints (guestMain input).metrics.monthly_volume_range ∧
      volumePoints (guestMain input).metrics.monthly_volume_range ≤
        (guestMain input).credit_score) := by
  by_cases h : validTransactions input = []
  · rw [guestMain_of_valid_nil input h]
    exact ⟨by norm_num, fun hne => absurd h hne⟩
  · have hc : (guestMain input).metrics.consistency_score ≤ 100 := by
      rw [guestMain_consistency_score input h]
      exact calculate_consistency_le_100 _
    have ha : (guestMain input).metrics.active_days_percentage ≤ 255 := by
      rw [guestMain_active_days_percentage input h]
      exact min_le_right _ _
    have hd : (guestMain input).metrics.customer_diversity_score ≤ 100 := by
      rw [guestMain_customer_diversity_score input h]
      have hu : ((validTransactions input).map (fun t => t.reference)).dedup.length ≤
          (validTransactions input).length := by
        have hsub := (List.dedup_sublist
          ((validTransactions input).map (fun t => t.reference))).length_le
        simpa [List.length_map] using hsub
      have hlen : 0 < (validTransactions input).length := List.length_pos.mpr h
      have hdiv : ((validTransactions input).map (fun t => t.reference)).dedup.length * 100 /
          (validTransactions input).length ≤ 100 := by
        calc ((validTransactions input).map (fun t => t.reference)).dedup.length * 100 /
            (validTransactions input).length
            ≤ (validTransactions input).length * 100 / (validTransactions input).length :=
              Nat.div_le_div_right (Nat.mul_le_mul_right 100 hu)
          _ = 100 := Nat.mul_div_cancel_left 100 hlen
      omega
    have hbounds := calculate_credit_score_bounds
      (guestMain input).metrics.monthly_volume_range
      (guestMain input).metrics.consistency_score
      (guestMain input).metrics.active_days_percentage
      (guestMain input).metrics.customer_diversity_score
      hc ha hd (guestMain input).metrics.growth_trend
    rw [guestMain_credit_score input h]
    have hvp : 0 < volumePoints (guestMain input).metrics.monthly_volume_range := by
      cases (guestMain input).metrics.monthly_volume_range <;> simp [volumePoints]
    exact ⟨hbounds.2, fun _ => ⟨hvp, hbounds.1⟩⟩

/-- C3 counterexample: two payments of 10¹² cents on consecutive days
(timestamps 0 and 86400) span a one-day period with two active days, so the
active-days percentage is 200 and the credit score reaches
`30 (VeryHigh volume) + 30 (consistency 100) + 40 (activity 200·20%)
+ 5 (Stable) + 10 (diversity) = 115 > 100`, refuting the claimed
`credit_score ∈ [0, 100]`. -/
theorem credit_score_exceeds_100 :
    (guestMain [⟨0, 1000000000000, "Payment", "a"⟩,
      ⟨86400, 1000000000000, "Payment", "b"⟩]).credit_score = 115 ∧
    ¬ (guestMain [⟨0, 1000000000000, "Payment", "a"⟩,
      ⟨86400, 1000000000000, "Payment", "b"⟩]).credit_score ≤ 100 := by decide

/-- C3 witness: the amended bounds at the concrete two-payment input. -/
theorem credit_score_bounds_witness :
    (guestMain [⟨0, 1000000000000, "Payment", "a"⟩,
      ⟨86400, 1000000000000, "Payment", "b"⟩]).credit_score ≤ 131 ∧
    (0 < volumePoints (guestMain [⟨0, 1000000000000, "Payment", "a"⟩,
        ⟨86400, 1000000000000, "Payment", "b"⟩]).metrics.monthly_volume_range ∧
      volumePoints (guestMain [⟨0, 1000000000000, "Payment", "a"⟩,
        ⟨86400, 1000000000000, "Payment", "b"⟩]).metrics.monthly_volume_range ≤
        (guestMain [⟨0, 1000000000000, "Payment", "a"⟩,
          ⟨86400, 1000000000000, "Payment", "b"⟩]).credit_score) :=
  ⟨(credit_score_bounds _).1, (credit_score_bounds _).2 (by decide)⟩

/-! ## The null output (empty filtered set) -/

theorem le_maxTimestamp (input : List Transaction) :
    ∀ t ∈ input, t.timestamp ≤ maxTimestamp input := by
  intro t ht
  unfold maxTimestamp
  cases hm : (input.map (fun t => t.timestamp)).max? with
  | none =>
      rw [List.max?_eq_none_iff] at hm
      rw [List.map_eq_nil_iff] at hm
      rw [hm] at ht
      exact absurd ht (List.not_mem_nil t)
  | some a =>
      obtain ⟨-, hall⟩ := (List.max?_eq_some_iff (fun x => le_refl x)
        (fun x y => max_choice x y) (fun x y z => max_le_iff)).mp hm
      have hmem : t.timestamp ∈ input.map (fun t => t.timestamp) :=
        List.mem_map_of_mem _ ht
      simpa using hall _ hmem

theorem maxTimestamp_mem_or_zero (input : List Transaction) :
    maxTimestamp input = 0 ∨
      maxTimestamp input ∈ input.map (fun t => t.timestamp) := by
  unfold maxTimestamp
  cases hm : (input.map (fun t => t.timestamp)).max? with
  | none => exact Or.inl rfl
  | some a =>
      refine Or.inr ?_
      simpa using List.max?_mem (fun x y => max_choice x y) hm

/-- C2: when the filtered transaction set (`amount > 0` and type
`Payment`/`Reversal`) is empty, the kernel emits the null output: 32 zero
bytes for `till_number_hash`, `period_start = period_end = ` the maximum
timestamp over the *whole* input (0 for an empty input, witnessed by the
last two conjuncts characterizing `maxTimestamp`), `credit_score = 0` and
metrics `{VeryLow, 0, Declining, 0, 0}`. -/
theorem null_output_on_empty_filter (input : List Transaction)
    (h : validTransactions input = []) :
    (guestMain input).till_number_hash = List.replicate 32 0 ∧
    (guestMain input).period_start = maxTimestamp input ∧
    (guestMain input).period_end = maxTimestamp input ∧
    (guestMain input).credit_score = 0 ∧
    (guestMain input).metrics =
      { monthly_volume_range := VolumeRange.VeryLow
        consistency_score := 0
        growth_trend := GrowthTrend.Declining
        active_days_percentage := 0
        customer_diversity_score := 0 } ∧
    (∀ t ∈ input, t.timestamp ≤ maxTimestamp input) ∧
    (maxTimestamp input = 0 ∨
      maxTimestamp input ∈ input.map (fun t => t.timestamp)) := by
  rw [guestMain_of_valid_nil input h]
  exact ⟨rfl, rfl, rfl, rfl, rfl, le_maxTimestamp input, maxTimestamp_mem_or_zero input⟩

/-- C2 witness: a single zero-amount payment is filtered out, and the
output is the null output with period `5`. -/
theorem null_output_on_empty_filter_witness :
    validTransactions [⟨5, 0, "Payment", "r"⟩] = [] ∧
    ((guestMain [⟨5, 0, "Payment", "r"⟩]).till_number_hash = List.replicate 32 0 ∧
    (guestMain [⟨5, 0, "Payment", "r"⟩]).period_start = maxTimestamp [⟨5, 0, "Payment", "r"⟩] ∧
    (guestMain [⟨5, 0, "Payment", "r"⟩]).period_end = maxTimestamp [⟨5, 0, "Payment", "r"⟩] ∧
    (guestMain [⟨5, 0, "Payment", "r"⟩]).credit_score = 0 ∧
    (guestMain [⟨5, 0, "Payment", "r"⟩]).metrics =
      { monthly_volume_range := VolumeRange.VeryLow
        consistency_score := 0
        growth_trend := GrowthTrend.Declining
        active_days_percentage := 0
        customer_diversity_score := 0 } ∧
    (∀ t ∈ ([⟨5, 0, "Payment", "r"⟩] : List Transaction),
      t.timestamp ≤ maxTimestamp [⟨5, 0, "Payment", "r"⟩]) ∧
    (maxTimestamp [⟨5, 0, "Payment", "r"⟩] = 0 ∨
      maxTimestamp [⟨5, 0, "Payment", "r"⟩] ∈
        ([⟨5, 0, "Payment", "r"⟩] : List Transaction).map (fun t => t.timestamp))) :=
  ⟨by decide, null_output_on_empty_filter [⟨5, 0, "Payment", "r"⟩] (by decide)⟩

/-! ## Active-days percentage -/

/-- C6 (amended): for a non-empty filtered set, `active_days_percentage`
equals `(active_day_count * 100) / days_in_period` **truncated** (not
rounded), saturated at 255 (the Rust `as u8` cast saturates; the value can
exceed 100), where `active_day_count` is the number of distinct day indices
of the filtered transactions and
`days_in_period = max 1 (i64wrap (period_end - period_start) / 86400)` —
the `i64` subtraction wraps when the period spans at least `2^63`
seconds. -/
theorem active_days_percentage_formula (input : List Transaction) (act days : Nat)
    (hne : validTransactions input ≠ [])
    (hact : act =
      ((validTransactions input).map (fun t => dayIndex t.timestamp)).toFinset.card)
    (hdays : days = max 1
      ((i64wrap ((guestMain input).period_end -
        (guestMain input).period_start)).tdiv 86400).toNat) :
    (guestMain input).metrics.active_days_percentage = min (act * 100 / days) 255 ∧
    (guestMain input).metrics.active_days_percentage ≤ 255 := by
  have hp := guestMain_active_days_percentage input hne
  have hps := guestMain_period_start input hne
  have hpe := guestMain_period_end input hne
  have hcd : calculate_days_between (periodStart input) (periodEnd input) = days := by
    rw [hdays, hps, hpe, calculate_days_between_eq]
  have hlen : (group_by_day (validTransactions input)).length = act := by
    rw [hact, group_by_day_length]
  rw [hp, hcd, hlen]
  exact ⟨rfl, min_le_right _ _⟩

/-- C6 counterexample.  First input: two payments at timestamps 0 and 86400
give a one-day period with two active days, so `active_days_percentage =
200 > 100`, refuting the claimed range `[0, 100]`.  Second input: payments
on days 0, 1, 2, 3 and 8 give 5 active days over an 8-day period; the exact
percentage is 62.5, the source truncates to 62, while the claimed
`round((active/days)·100)` is 63 — the last conjunct computes that rounding
as `⌊(2·(5·100) + 8) / (2·8)⌋ = ⌊62.5 + 0.5⌋ = 63 ≠ 62`. -/
theorem active_days_percentage_counterexample :
    (guestMain [⟨0, 1000, "Payment", "a"⟩,
      ⟨86400, 1000, "Payment", "b"⟩]).metrics.active_days_percentage = 200 ∧
    (guestMain [⟨0, 1000, "Payment", "a"⟩, ⟨86400, 1000, "Payment", "b"⟩,
      ⟨172800, 1000, "Payment", "c"⟩, ⟨259200, 1000, "Payment", "d"⟩,
      ⟨691200, 1000, "Payment", "e"⟩]).metrics.active_days_percentage = 62 ∧
    ((validTransactions [⟨0, 1000, "Payment", "a"⟩, ⟨86400, 1000, "Payment", "b"⟩,
      ⟨172800, 1000, "Payment", "c"⟩, ⟨259200, 1000, "Payment", "d"⟩,
      ⟨691200, 1000, "Payment", "e"⟩]).map
        (fun t => dayIndex t.timestamp)).toFinset.card = 5 ∧
    calculate_days_between 0 691200 = 8 ∧
    (2 * (5 * 100) + 8) / (2 * 8) = 63 := by decide

/-- C6 witness: the amended formula at the 5-payment input
(`act = 5`, `days = 8`, percentage `⌊500/8⌋ = 62`). -/
theorem active_days_percentage_formula_witness :
    (guestMain [⟨0, 1000, "Payment", "a"⟩, ⟨86400, 1000, "Payment", "b"⟩,
      ⟨172800, 1000, "Payment", "c"⟩, ⟨259200, 1000, "Payment", "d"⟩,
      ⟨691200, 1000, "Payment", "e"⟩]).metrics.active_days_percentage =
        min (5 * 100 / 8) 255 ∧
    (guestMain [⟨0, 1000, "Payment", "a"⟩, ⟨86400, 1000, "Payment", "b"⟩,
      ⟨172800, 1000, "Payment", "c"⟩, ⟨259200, 1000, "Payment", "d"⟩,
      ⟨691200, 1000, "Payment", "e"⟩]).metrics.active_days_percentage ≤ 255 :=
  active_days_percentage_formula
    [⟨0, 1000, "Payment", "a"⟩, ⟨86400, 1000, "Payment", "b"⟩,
      ⟨172800, 1000, "Payment", "c"⟩, ⟨259200, 1000, "Payment", "d"⟩,
      ⟨691200, 1000, "Payment", "e"⟩] 5 8 (by decide) (by decide) (by decide)

/-! ## Scaling all amounts by a positive factor -/

theorem validTransactions_scale (k : Nat) (hk : 0 < k) (input : List Transaction) :
    validTransactions (input.map (fun t => { t with amount := k * t.amount })) =
      (validTransactions input).map (fun t => { t with amount := k * t.amount }) := by
  have hp1 : ∀ t : Transaction, (0 < k * t.amount) ↔ (0 < t.amount) := fun t =>
    ⟨fun h => Nat.pos_of_ne_zero fun ha => by
        rw [ha, Nat.mul_zero] at h
        exact Nat.lt_irrefl 0 h,
     fun h => Nat.mul_pos hk h⟩
  have e1 : ((fun t : Transaction => decide (0 < t.amount)) ∘
      (fun t : Transaction => { t with amount := k * t.amount })) =
      (fun t : Transaction => decide (0 < t.amount)) := by
    funext t
    simp only [Function.comp]
    exact decide_eq_decide.mpr (hp1 t)
  have e2 : ((fun t : Transaction =>
        t.transaction_type == "Payment" || t.transaction_type == "Reversal") ∘
      (fun t : Transaction => { t with amount := k * t.amount })) =
      (fun t : Transaction =>
        t.transaction_type == "Payment" || t.transaction_type == "Reversal") := rfl
  unfold validTransactions
  rw [List.filter_map, e1, List.filter_map, e2]

theorem insertDayAmount_scale (k : Nat) :
    ∀ (acc : List (Int × List Nat)) (d : Int) (a : Nat),
      insertDayAmount (acc.map (fun p => (p.1, p.2.map (fun x => k * x)))) d (k * a) =
        (insertDayAmount acc d a).map (fun p => (p.1, p.2.map (fun x => k * x))) := by
  intro acc
  induction acc with
  | nil => intro d a; rfl
  | cons p rest ih =>
      intro d a
      obtain ⟨kk, v⟩ := p
      by_cases hd : kk = d
      · subst hd
        simp [insertDayAmount]
      · simp [insertDayAmount, hd, ih]

theorem group_by_day_scale (k : Nat) (l : List Transaction) :
    group_by_day (l.map (fun t => { t with amount := k * t.amount })) =
      (group_by_day l).map (fun p => (p.1, p.2.map (fun x => k * x))) := by
  unfold group_by_day
  rw [List.foldl_map]
  suffices h : ∀ acc : List (Int × List Nat),
      l.foldl (fun acc t => insertDayAmount acc (dayIndex t.timestamp) (k * t.amount))
        (acc.map (fun p => (p.1, p.2.map (fun x => k * x)))) =
      (l.foldl (fun acc t => insertDayAmount acc (dayIndex t.timestamp) t.amount)
        acc).map (fun p => (p.1, p.2.map (fun x => k * x))) by
    simpa using h []
  induction l with
  | nil => intro acc; rfl
  | cons t ts ih =>
      intro acc
      simp only [List.foldl_cons]
      rw [insertDayAmount_scale k acc (dayIndex t.timestamp) t.amount]
      exact ih _

theorem volumePoints_categorize_mono {m1 m2 : Nat} (h : m1 ≤ m2) :
    volumePoints (categorize_volume m1) ≤ volumePoints (categorize_volume m2) := by
  have hd : m1 / 100 ≤ m2 / 100 := Nat.div_le_div_right h
  simp only [categorize_volume]
  split_ifs <;> simp [volumePoints] <;> omega

/-- C9 counterexample: scaling can wrap the `u64` total-volume sum
(`main.rs:96`) and *decrease* the volume component.  Two payments of
`2^62 + 250` cents at timestamp 0 total `2^63 + 500` (no wrap → the monthly
volume saturates → `VeryHigh`, 30 points).  Scaling by the positive factor
2 keeps each amount a valid `u64` (`2^63 + 500 < 2^64`, third conjunct) but
the program's sum wraps to `(2^64 + 1000) mod 2^64 = 1000`, so the monthly
volume is 30000 cents → `VeryLow`, 5 points: the volume component drops
from 30 to 5. -/
theorem scaling_volume_wraps :
    ([⟨0, 2 * (2 ^ 62 + 250), "Payment", "a"⟩,
      ⟨0, 2 * (2 ^ 62 + 250), "Payment", "b"⟩] : List Transaction) =
      ([⟨0, 2 ^ 62 + 250, "Payment", "a"⟩,
        ⟨0, 2 ^ 62 + 250, "Payment", "b"⟩] : List Transaction).map
        (fun t => { t with amount := 2 * t.amount }) ∧
    2 * (2 ^ 62 + 250) < U64MOD ∧
    volumePoints (guestMain [⟨0, 2 ^ 62 + 250, "Payment", "a"⟩,
      ⟨0, 2 ^ 62 + 250, "Payment", "b"⟩]).metrics.monthly_volume_range = 30 ∧
    volumePoints (guestMain [⟨0, 2 * (2 ^ 62 + 250), "Payment", "a"⟩,
      ⟨0, 2 * (2 ^ 62 + 250), "Payment", "b"⟩]).metrics.monthly_volume_range = 5 ∧
    ¬ volumePoints (guestMain [⟨0, 2 ^ 62 + 250, "Payment", "a"⟩,
        ⟨0, 2 ^ 62 + 250, "Payment", "b"⟩]).metrics.monthly_volume_range ≤
      volumePoints (guestMain [⟨0, 2 * (2 ^ 62 + 250), "Payment", "a"⟩,
        ⟨0, 2 * (2 ^ 62 + 250), "Payment", "b"⟩]).metrics.monthly_volume_range := by
  decide

/-- C9 (amended): multiplying every amount by a positive integer factor `k`
always leaves `active_days_percentage` and `customer_diversity_score`
unchanged (timestamps and references are untouched, so the filtered set,
the period, the day buckets and the reference multiset are all preserved);
and, provided the scaled total volume does not wrap `u64`
(`k · Σ amounts < 2^64`), it never decreases the volume component of the
credit score (the total scales by `k ≥ 1` and the volume categorization is
monotone). -/
theorem scaling_amounts_monotone (k : Nat) (input scaled : List Transaction)
    (hk : 0 < k)
    (hscaled : scaled = input.map (fun t => { t with amount := k * t.amount })) :
    (k * ((validTransactions input).map (fun t => t.amount)).sum < U64MOD →
      volumePoints (guestMain input).metrics.monthly_volume_range ≤
        volumePoints (guestMain scaled).metrics.monthly_volume_range) ∧
    (guestMain scaled).metrics.active_days_percentage =
      (guestMain input).metrics.active_days_percentage ∧
    (guestMain scaled).metrics.customer_diversity_score =
      (guestMain input).metrics.customer_diversity_score := by
  subst hscaled
  by_cases h : validTransactions input = []
  · have hs : validTransactions
        (input.map (fun t => { t with amount := k * t.amount })) = [] := by
      rw [validTransactions_scale k hk input, h]
      rfl
    rw [guestMain_of_valid_nil input h, guestMain_of_valid_nil _ hs]
    exact ⟨fun _ => Nat.le_refl _, rfl, rfl⟩
  · have hs : validTransactions
        (input.map (fun t => { t with amount := k * t.amount })) ≠ [] := by
      rw [validTransactions_scale k hk input]
      intro hc
      exact h (List.map_eq_nil_iff.mp hc)
    have hts : (validTransactions
          (input.map (fun t => { t with amount := k * t.amount }))).map
            (fun t => t.timestamp) =
        (validTransactions input).map (fun t => t.timestamp) := by
      rw [validTransactions_scale k hk input, List.map_map]
      rfl
    have hps : periodStart (input.map (fun t => { t with amount := k * t.amount })) =
        periodStart input := by
      unfold periodStart
      rw [hts]
    have hpe : periodEnd (input.map (fun t => { t with amount := k * t.amount })) =
        periodEnd input := by
      unfold periodEnd
      rw [hts]
    refine ⟨?_, ?_, ?_⟩
    · -- volume component is monotone when the scaled u64 sum does not wrap
      intro hnw
      rw [guestMain_monthly_volume_range input h, guestMain_monthly_volume_range _ hs]
      have hsum : ((validTransactions
            (input.map (fun t => { t with amount := k * t.amount }))).map
              (fun t => t.amount)).sum =
          k * ((validTransactions input).map (fun t => t.amount)).sum := by
        rw [validTransactions_scale k hk input, List.map_map]
        exact List.sum_map_mul_left (validTransactions input) (fun t => t.amount) k
      have hle : ((validTransactions input).map (fun t => t.amount)).sum ≤
          k * ((validTransactions input).map (fun t => t.amount)).sum :=
        Nat.le_mul_of_pos_left _ hk
      have hm2 : (k * ((validTransactions input).map (fun t => t.amount)).sum) % U64MOD =
          k * ((validTransactions input).map (fun t => t.amount)).sum :=
        Nat.mod_eq_of_lt hnw
      have hm1 : (((validTransactions input).map (fun t => t.amount)).sum) % U64MOD =
          ((validTransactions input).map (fun t => t.amount)).sum :=
        Nat.mod_eq_of_lt (Nat.lt_of_le_of_lt hle hnw)
      rw [hsum, hps, hpe, hm1, hm2]
      apply volumePoints_categorize_mono
      apply min_le_min_right
      apply Nat.div_le_div_right
      exact Nat.mul_le_mul_right 30 hle
    · -- active-days percentage unchanged
      rw [guestMain_active_days_percentage input h, guestMain_active_days_percentage _ hs]
      have hglen : (group_by_day (validTransactions
            (input.map (fun t => { t with amount := k * t.amount })))).length =
          (group_by_day (validTransactions input)).length := by
        rw [validTransactions_scale k hk input, group_by_day_scale k]
        exact List.length_map _ _
      rw [hglen, hps, hpe]
    · -- customer diversity unchanged
      rw [guestMain_customer_diversity_score input h,
        guestMain_customer_diversity_score _ hs]
      have hrefs : (validTransactions
            (input.map (fun t => { t with amount := k * t.amount }))).map
              (fun t => t.reference) =
          (validTransactions input).map (fun t => t.reference) := by
        rw [validTransactions_scale k hk input, List.map_map]
        rfl
      have hlen : (validTransactions
            (input.map (fun t => { t with amount := k * t.amount }))).length =
          (validTransactions input).length := by
        rw [validTransactions_scale k hk input]
        exact List.length_map _ _
      rw [hrefs, hlen]

/-- C9 witness: doubling the amount of a single payment (100 → 200 cents,
far below the wrap bound) keeps both categorizations at `VeryLow`
(5 ≤ 5 volume points) and leaves the activity and diversity scores at
100. -/
theorem scaling_amounts_monotone_witness :
    volumePoints (guestMain [⟨0, 100, "Payment", "a"⟩]).metrics.monthly_volume_range ≤
      volumePoints (guestMain [⟨0, 200, "Payment", "a"⟩]).metrics.monthly_volume_range ∧
    (guestMain [⟨0, 200, "Payment", "a"⟩]).metrics.active_days_percentage =
      (guestMain [⟨0, 100, "Payment", "a"⟩]).metrics.active_days_percentage ∧
    (guestMain [⟨0, 200, "Payment", "a"⟩]).metrics.customer_diversity_score =
      (guestMain [⟨0, 100, "Payment", "a"⟩]).metrics.customer_diversity_score :=
  have hthm := scaling_amounts_monotone 2 [⟨0, 100, "Payment", "a"⟩]
    [⟨0, 200, "Payment", "a"⟩] (by decide) (by decide)
  ⟨hthm.1 (by decide), hthm.2.1, hthm.2.2⟩

/-! ## Verification gateway and session-store claims -/

/-- C1: `GET /verify/:code` does **not** enforce expiry.  The handler's
query filters only on `verification_code` and `status = 'completed'`
(`verifyCodeRowMatch`) and never reads `expires_at`; its result does not
depend on the current time at all.  Concretely, for a completed session
whose `expires_at = 100` lies before `now = 200`, the lookup still returns
a response with `valid = true` instead of the not-found the claim (and the
spec's MUST) requires. -/
theorem verify_code_ignores_expiry :
    (200 : Int) > (⟨1, SessionStatus.completed, some 100, some 72, some "m", none,
      "ABCDEF123456", 100, none, 0, 0⟩ : ProofSession).expiresAt ∧
    verify_code (fun s => s) (fun _ => "Jan 2024") [(1, "12345")]
      [⟨1, SessionStatus.completed, some 100, some 72, some "m", none,
        "ABCDEF123456", 100, none, 0, 0⟩] "ABCDEF123456" =
      some ⟨true, "12345", "Jan 2024 - Jan 2024", 72, "m"⟩ := by decide

/-- C5: the `Pending → Processing` transition is **not** guarded.  The
`UPDATE ... SET status = 'processing' WHERE id = $1` executed by the worker
(`api/src/worker.rs:55`) and by `generate_proof`
(`api/src/services/proof.rs:60`) carries no `status = 'pending'` condition,
so claiming a Completed session (e.g. one whose ID was enqueued twice)
succeeds and moves it *backward* to Processing — where the spec-side
`claim` (`claimSpec`) fails. -/
theorem claim_transition_unguarded :
    (claimSession (⟨2, SessionStatus.completed, some 100, some 80, some "m",
        some [1, 2], "CODE12345678", 1000, none, 0, 0⟩ : ProofSession)).status =
      SessionStatus.processing ∧
    statusRank (claimSession (⟨2, SessionStatus.completed, some 100, some 80, some "m",
        some [1, 2], "CODE12345678", 1000, none, 0, 0⟩ : ProofSession)).status <
      statusRank (⟨2, SessionStatus.completed, some 100, some 80, some "m",
        some [1, 2], "CODE12345678", 1000, none, 0, 0⟩ : ProofSession).status ∧
    claimSpec (⟨2, SessionStatus.completed, some 100, some 80, some "m",
        some [1, 2], "CODE12345678", 1000, none, 0, 0⟩ : ProofSession) = none := by
  decide

/-- C8 counterexample: `create_proof_session` sets
`expires_at = now + Duration::days(365)` (`api/src/services/proof.rs:17`),
not the claimed 90 days. -/
theorem create_session_expiry_counterexample :
    (create_proof_session 7 0 "CODEABCDEF12").expiresAt = 365 * 86400 ∧
    (365 * 86400 : Int) ≠ 90 * 86400 := by decide

/-- C8 (amended): creating a proof session inserts a row with status
Pending, the freshly generated verification code, `expires_at` equal to the
creation time plus **365** days (not 90), and
`created_at = updated_at = ` the creation time (schema column defaults,
modelled from the spec); score, receipt and error are unset. -/
theorem create_session_fields (tillId : Nat) (now : Int) (code : String) :
    (create_proof_session tillId now code).status = SessionStatus.pending ∧
    (create_proof_session tillId now code).verificationCode = code ∧
    (create_proof_session tillId now code).expiresAt = now + 365 * 86400 ∧
    (create_proof_session tillId now code).createdAt = now ∧
    (create_proof_session tillId now code).updatedAt = now ∧
    (create_proof_session tillId now code).creditScore = none ∧
    (create_proof_session tillId now code).receiptData = none ∧
    (create_proof_session tillId now code).errorMessage = none :=
  ⟨rfl, rfl, rfl, rfl, rfl, rfl, rfl, rfl⟩

/-- C10: when the lender lookup finds a completed session whose stored
`receipt_data` is NULL, `verify_proof` answers `valid = true` without any
cryptographic receipt verification: the result is independent of the
receipt verifier (`f` vs `g`), and equals the fixed `valid = true`
response built from the stored row. -/
theorem verify_proof_null_receipt (pu : String → Bool)
    (f g : List Nat → Except String Bool) (db : List ProofSession)
    (pid : String) (row : ProofSession)
    (hpu : pu pid = true)
    (hfind : db.find? (verifyCodeRowMatch pid) = some row)
    (hrd : row.receiptData = none) :
    verify_proof pu f db pid = verify_proof pu g db pid ∧
    verify_proof pu f db pid = Except.ok
      { valid := true
        creditScore := row.creditScore.getD 0
        metrics := row.metrics.getD "\x7b\x7d"
        generatedAt := row.createdAt } := by
  simp [verify_proof, hpu, hfind, hrd]

/-- C10 witness: a completed session with no stored receipt is reported
valid both under a verifier that rejects everything and under one that
errors on everything. -/
theorem verify_proof_null_receipt_witness :
    verify_proof (fun _ => true) (fun _ => Except.ok false)
        [⟨3, SessionStatus.completed, some 100, some 55, some "m", none,
          "11111111-2222-3333-4444-555555555555", 99, none, 42, 42⟩]
        "11111111-2222-3333-4444-555555555555" =
      verify_proof (fun _ => true) (fun _ => Except.error "bad receipt")
        [⟨3, SessionStatus.completed, some 100, some 55, some "m", none,
          "11111111-2222-3333-4444-555555555555", 99, none, 42, 42⟩]
        "11111111-2222-3333-4444-555555555555" ∧
    verify_proof (fun _ => true) (fun _ => Except.ok false)
        [⟨3, SessionStatus.completed, some 100, some 55, some "m", none,
          "11111111-2222-3333-4444-555555555555", 99, none, 42, 42⟩]
        "11111111-2222-3333-4444-555555555555" =
      Except.ok { valid := true, creditScore := 55, metrics := "m", generatedAt := 42 } :=
  verify_proof_null_receipt (fun _ => true) (fun _ => Except.ok false)
    (fun _ => Except.error "bad receipt")
    [⟨3, SessionStatus.completed, some 100, some 55, some "m", none,
      "11111111-2222-3333-4444-555555555555", 99, none, 42, 42⟩]
    "11111111-2222-3333-4444-555555555555"
    ⟨3, SessionStatus.completed, some 100, some 55, some "m", none,
      "11111111-2222-3333-4444-555555555555", 99, none, 42, 42⟩
    rfl (by decide) rfl
